import Mathlib

set_option maxRecDepth 100000
set_option maxHeartbeats 8000000

/-!
# Verification of the TC3-HMAC-SHA256 request signer

Shallow embedding of `src/tencent_clould_api/api_client/base.py`
(`BaseApiRequestFactory`): the canonical-request construction, the
HMAC-SHA256 signature chain, the `Authorization` header assembly and the
header map built by `__make_headers`, together with the payload
serializations used for signing (`json.dumps`) and for transmission
(`requests.post` with `json=` / `data=`).

Machine words are modelled as `Nat` reduced modulo `2 ^ 32`; byte strings
are `List Nat` with entries below `256`.  All definitions are executable so
that concrete inputs evaluate by `decide` / `rfl`.
-/

namespace TencentSign

/-! ## Bytes, UTF-8 and hex rendering -/

/-- UTF-8 encoding of a single Unicode code point (1 to 4 bytes). -/
def utf8Char (c : Nat) : List Nat :=
  if c < 128 then [c]
  else if c < 2048 then [192 + c / 64, 128 + c % 64]
  else if c < 65536 then [224 + c / 4096, 128 + (c / 64) % 64, 128 + c % 64]
  else [240 + c / 262144, 128 + (c / 4096) % 64, 128 + (c / 64) % 64, 128 + c % 64]

/-- UTF-8 encoding of a string, as Python's `str.encode("utf-8")`. -/
def utf8 (s : String) : List Nat :=
  (s.data.map (fun c => utf8Char c.toNat)).flatten

/-- Lowercase hex digit for a value below 16. -/
def hexChar (n : Nat) : Char :=
  if n < 10 then Char.ofNat (48 + n) else Char.ofNat (87 + n)

/-- Lowercase hex rendering of a byte string, as Python's `bytes.hex()` /
`hexdigest()`. -/
def toHex (bs : List Nat) : String :=
  ((bs.map (fun b => [hexChar (b / 16), hexChar (b % 16)])).flatten).asString

/-! ## SHA-256 (`hashlib.sha256`)

Word sequences (the message schedule, the eight-word state) are packed
positionally into a single `Nat` in base `2 ^ 32`, so that concrete
evaluation inside proof checkers runs on the arbitrary-precision numeric
fast paths (`div`, `mod`, `pow`) instead of allocating list cells. -/

/-- Truncation to a 32-bit word. -/
def w32 (n : Nat) : Nat := n % 4294967296

/-- 32-bit XOR. -/
def xor32 (a b : Nat) : Nat := a ^^^ b

/-- 8-bit XOR (for the HMAC pad bytes). -/
def xor8 (a b : Nat) : Nat := a ^^^ b

/-- 32-bit AND. -/
def and32 (a b : Nat) : Nat := a &&& b

/-- Right rotation of a 32-bit word (`x < 2 ^ 32`). -/
def rotr32 (k x : Nat) : Nat := x / 2 ^ k + x % 2 ^ k * 2 ^ (32 - k)

/-- Big-endian rendering of `n` on `k` bytes. -/
def beBytes (k n : Nat) : List Nat :=
  match k with
  | 0 => []
  | k + 1 => beBytes k (n / 256) ++ [n % 256]

/-- SHA-256 padding: append `0x80`, zeros to 56 mod 64, and the 64-bit
big-endian bit length. -/
def sha256pad (msg : List Nat) : List Nat :=
  msg ++ [128] ++ List.replicate ((119 - msg.length % 64) % 64) 0
      ++ beBytes 8 (8 * msg.length)

/-- Group bytes into big-endian 32-bit words. -/
def bytesToWords : List Nat → List Nat
  | a :: b :: c :: d :: rest =>
      (((a * 256 + b) * 256 + c) * 256 + d) :: bytesToWords rest
  | _ => []

/-- Pack a list of 32-bit words positionally into one `Nat`: word `i` at
base-`2 ^ 32` position `i`. -/
def packW : List Nat → Nat
  | [] => 0
  | w :: ws => w + 4294967296 * packW ws

/-- The 32-bit word at position `i` of a packed word sequence. -/
def wAt (P i : Nat) : Nat := P / 4294967296 ^ i % 4294967296

/-- The 64 FIPS 180-4 round constants `K₀ … K₆₃` (the fractional parts of
the cube roots of the first 64 primes), packed positionally: `K i = wAt
sha256Kpack i`.  Spot checks: `wAt sha256Kpack 0 = 0x428a2f98`,
`wAt sha256Kpack 63 = 0xc67178f2` (see `sha256_constants_spot_checks`). -/
def sha256Kpack : Nat :=
  25051139735836467913601071899189108501681633092613316132753366958947502841281110980347811086624969305314199562795868290539880502533646505489797110349007385020507326982043050618112420254613810441709594605123090411975756494285771699200369901479195251226368983824020564277645963860728452821576845901498668417244438721537663670541944820957180957595559282976806173113161068298822071065329290006052849814285001949914564097058408480133985233335799884203712730341384999677089997083749077591931498939520449886954646413138343858395935213418018409268340744776361518554939863400075967197509182087778881547827184266701615699472280

/-- The eight FIPS 180-4 initial hash values `H₀ … H₇` (the fractional
parts of the square roots of the first 8 primes), packed positionally:
spot checks in `sha256_constants_spot_checks`. -/
def sha256H0pack : Nat :=
  41557658498906279274860226408925318911382702236748615442085426012007055353447

/-- Message-schedule extension: compute words `i, i+1, …` of the packed
schedule from the words already present (`fuel` counts the remaining
words). -/
def schedAux : Nat → Nat → Nat → Nat
  | 0, _, P => P
  | fuel + 1, i, P =>
      let x15 := wAt P (i - 15)
      let x2 := wAt P (i - 2)
      let s0 := xor32 (xor32 (rotr32 7 x15) (rotr32 18 x15)) (x15 / 8)
      let s1 := xor32 (xor32 (rotr32 17 x2) (rotr32 19 x2)) (x2 / 1024)
      schedAux fuel (i + 1)
        (P + w32 (wAt P (i - 16) + s0 + wAt P (i - 7) + s1) * 4294967296 ^ i)

/-- Extend the 16 words of a block (packed) to the 64-word message
schedule (packed). -/
def sha256schedule (w16 : Nat) : Nat := schedAux 48 16 w16

/-- One compression round: from the packed eight-word working state `st`
(`a` at position 0 … `h` at position 7) to the next state, using round
constant and schedule word `i`. -/
def sha256step (i P st : Nat) : Nat :=
  let a := wAt st 0
  let b := wAt st 1
  let c := wAt st 2
  let d := wAt st 3
  let e := wAt st 4
  let f := wAt st 5
  let g := wAt st 6
  let h := wAt st 7
  let S1 := xor32 (xor32 (rotr32 6 e) (rotr32 11 e)) (rotr32 25 e)
  let ch := xor32 (and32 e f) (and32 (4294967295 - e) g)
  let t1 := w32 (h + S1 + ch + wAt sha256Kpack i + wAt P i)
  let S0 := xor32 (xor32 (rotr32 2 a) (rotr32 13 a)) (rotr32 22 a)
  let mj := xor32 (xor32 (and32 a b) (and32 a c)) (and32 b c)
  let t2 := w32 (S0 + mj)
  packW [w32 (t1 + t2), a, b, c, w32 (d + t1), e, f, g]

/-- The compression rounds from round `i`; the state argument is
pattern-matched so each intermediate state is reduced to a numeral before
the next round (keeping evaluation depth constant). -/
def roundsAux : Nat → Nat → Nat → Nat → Nat
  | 0, _, _, st => st
  | fuel + 1, i, P, 0 => roundsAux fuel (i + 1) P (sha256step i P 0)
  | fuel + 1, i, P, st + 1 => roundsAux fuel (i + 1) P (sha256step i P (st + 1))

/-- Compress one 64-byte block into the packed running hash state. -/
def sha256compress (hs : Nat) (block : List Nat) : Nat :=
  let P := sha256schedule (packW (bytesToWords block))
  let st := roundsAux 64 0 P hs
  packW ((List.range 8).map (fun i => w32 (wAt hs i + wAt st i)))

/-- Split a byte string into 64-byte blocks (fuel-based for kernel
reducibility). -/
def toBlocksAux : Nat → List Nat → List (List Nat)
  | 0, _ => []
  | _ + 1, [] => []
  | fuel + 1, l => l.take 64 :: toBlocksAux fuel (l.drop 64)

/-- Split a byte string into 64-byte blocks. -/
def toBlocks (l : List Nat) : List (List Nat) := toBlocksAux l.length l

/-- SHA-256 digest (32 bytes) of a byte string. -/
def sha256 (msg : List Nat) : List Nat :=
  let hs := (toBlocks (sha256pad msg)).foldl sha256compress sha256H0pack
  ((List.range 8).map (fun i => beBytes 4 (wAt hs i))).flatten

/-- HMAC-SHA256 (`hmac.new(key, msg, hashlib.sha256)`), block size 64;
returns the raw 32-byte digest. -/
def hmacSha256 (key msg : List Nat) : List Nat :=
  let k0 := if 64 < key.length then sha256 key else key
  let k := k0 ++ List.replicate (64 - k0.length) 0
  sha256 ((k.map (fun b => xor8 b 92)) ++ sha256 ((k.map (fun b => xor8 b 54)) ++ msg))

/-! ## Decimal rendering (Python `str(int)`) -/

/-- Little-endian decimal digits of a positive number (fuel-based). -/
def decAux : Nat → Nat → List Nat
  | 0, _ => []
  | _ + 1, 0 => []
  | fuel + 1, n + 1 => ((n + 1) % 10) :: decAux fuel ((n + 1) / 10)

/-- The character of a decimal digit. -/
def digitChar (d : Nat) : Char := Char.ofNat (48 + d)

/-- Decimal rendering of a natural number, as Python's `str`. -/
def natToDec (n : Nat) : String :=
  if n = 0 then "0" else ((decAux n n).reverse.map digitChar).asString

/-- Decimal rendering of an integer, as Python's `str`. -/
def intToDec : Int → String
  | .ofNat n => natToDec n
  | .negSucc n => "-" ++ natToDec (n + 1)

/-- Value of a little-endian decimal digit list. -/
def ofDigitsLE : List Nat → Nat
  | [] => 0
  | d :: ds => d + 10 * ofDigitsLE ds

/-- Digit of a decimal character. -/
def charToDigit (c : Char) : Nat := c.toNat - 48

/-- Decimal parsing, inverse of `natToDec`. -/
def decodeDec (s : String) : Nat := ofDigitsLE (s.data.reverse.map charToDigit)

/-! ## UTC calendar conversion (`datetime.utcfromtimestamp` + `strftime("%Y-%m-%d")`) -/

/-- Proleptic Gregorian date (year, month, day) of a day count since
1970-01-01 (standard era-based civil-from-days computation). -/
def civilFromDays (z : Nat) : Nat × Nat × Nat :=
  let doe := (z + 719468) % 146097
  let era := (z + 719468) / 146097
  let yoe := (doe - doe / 1460 + doe / 36524 - doe / 146096) / 365
  let y := yoe + era * 400
  let doy := doe - (365 * yoe + yoe / 4 - yoe / 100)
  let mp := (5 * doy + 2) / 153
  let d := doy - (153 * mp + 2) / 5 + 1
  let m := if mp < 10 then mp + 3 else mp - 9
  (if m ≤ 2 then y + 1 else y, m, d)

/-- Zero-padded two-digit rendering (`%m`, `%d`). -/
def pad2 (n : Nat) : String := if n < 10 then "0" ++ natToDec n else natToDec n

/-- `datetime.utcfromtimestamp(timestamp).strftime("%Y-%m-%d")`: the UTC
calendar date of a unix timestamp, rendered `YYYY-MM-DD`. -/
def now_date (timestamp : Nat) : String :=
  let ymd := civilFromDays (timestamp / 86400)
  natToDec ymd.1 ++ "-" ++ pad2 ymd.2.1 ++ "-" ++ pad2 ymd.2.2

/-! ## Payload values and serializations

`send_request` / `__make_headers` take a Python `dict`; we model it as an
association list of string keys to string or integer values, the shapes the
client code actually sends. -/

/-- A payload value: a Python `str` or `int`. -/
inductive JVal where
  | s : String → JVal
  | i : Int → JVal

/-- A payload: an insertion-ordered Python `dict`. -/
def Payload := List (String × JVal)

/-- Four-digit lowercase hex (for `\uXXXX` escapes). -/
def hex4 (n : Nat) : String :=
  ⟨[hexChar (n / 4096 % 16), hexChar (n / 256 % 16), hexChar (n / 16 % 16), hexChar (n % 16)]⟩

/-- JSON escaping of one character, as `json.dumps` with `ensure_ascii=True`
(the default): short escapes, `\u00XX` for other controls, `\uXXXX` (with
surrogate pairs) for non-ASCII. -/
def jsonEscapeChar (c : Char) : String :=
  let n := c.toNat
  if n = 34 then "\\\"" else if n = 92 then "\\\\"
  else if n = 10 then "\\n" else if n = 9 then "\\t" else if n = 13 then "\\r"
  else if n = 8 then "\\b" else if n = 12 then "\\f"
  else if n < 32 then "\\u" ++ hex4 n
  else if n < 127 then String.singleton c
  else if n < 65536 then "\\u" ++ hex4 n
  else "\\u" ++ hex4 (55296 + (n - 65536) / 1024) ++ "\\u" ++ hex4 (56320 + (n - 65536) % 1024)

/-- JSON string literal, as `json.dumps` renders a `str`. -/
def jsonStr (s : String) : String :=
  "\"" ++ String.join (s.data.map jsonEscapeChar) ++ "\""

/-- JSON rendering of one payload value. -/
def jvalDumps : JVal → String
  | .s v => jsonStr v
  | .i v => intToDec v

/-- `json.dumps(payload)` with default arguments: item separator `", "`,
key separator `": "`, insertion order preserved. -/
def json_dumps (payload : Payload) : String :=
  "\x7b" ++ String.join (List.intersperse ", "
      (payload.map (fun kv => jsonStr kv.1 ++ ": " ++ jvalDumps kv.2))) ++ "\x7d"

/-- Python `str()` of a payload value (used by `urlencode`). -/
def strOfJVal : JVal → String
  | .s v => v
  | .i v => intToDec v

/-- Uppercase hex digit for a value below 16. -/
def hexCharUpper (n : Nat) : Char :=
  if n < 10 then Char.ofNat (48 + n) else Char.ofNat (55 + n)

/-- Percent-escape of one byte, uppercase hex. -/
def percentByte (b : Nat) : String :=
  "%" ++ ⟨[hexCharUpper (b / 16), hexCharUpper (b % 16)]⟩

/-- `urllib.parse.quote_plus`: unreserved characters kept, space becomes
`+`, everything else UTF-8 percent-encoded with uppercase hex. -/
def quote_plus (s : String) : String :=
  String.join (s.data.map (fun c =>
    if (('a' ≤ c ∧ c ≤ 'z') ∨ ('A' ≤ c ∧ c ≤ 'Z') ∨ ('0' ≤ c ∧ c ≤ '9')
        ∨ c = '_' ∨ c = '.' ∨ c = '-' ∨ c = '~') then String.singleton c
    else if c = ' ' then "+"
    else String.join ((utf8Char c.toNat).map percentByte)))

/-- `urllib.parse.urlencode(payload)`: the form body `requests.post`
transmits for `data=payload`. -/
def urlencode (payload : Payload) : String :=
  String.join (List.intersperse "&"
    (payload.map (fun kv => quote_plus kv.1 ++ "=" ++ quote_plus (strOfJVal kv.2))))

/-! ## The signer (`BaseApiRequestFactory`)

The per-instance attributes set in `__init__` and overridden by
subclasses are gathered in `ApiConfig`; the attributes `__init__` fixes
once and never changes (`_algorithm`, `_canonical_uri`,
`_http_request_method`, `_canonical_query_string`, `_signed_headers`) are
plain constants. -/

/-- Credentials and service descriptor held by a `BaseApiRequestFactory`
instance. -/
structure ApiConfig where
  secret_id : String
  secret_key : String
  region : String
  service : String
  host : String
  action : String
  version : String
  content_type : String

/-- `self._algorithm`, fixed in `__init__`. -/
def algorithm : String := "TC3-HMAC-SHA256"

/-- `self._canonical_uri`, fixed in `__init__`. -/
def canonical_uri : String := "/"

/-- `self._http_request_method`, fixed in `__init__`. -/
def http_request_method : String := "POST"

/-- `self._canonical_query_string`, fixed in `__init__`. -/
def canonical_query_string : String := ""

/-- `self._signed_headers`, fixed in `__init__`. -/
def signed_headers : String := "content-type;host"

/-- The `_canonical_headers` property:
`f"content-type:{self._content_type}\nhost:{self._host}\n"`. -/
def canonical_headers (cfg : ApiConfig) : String :=
  "content-type:" ++ cfg.content_type ++ "\n" ++ "host:" ++ cfg.host ++ "\n"

/-- The `__sign` helper: `hmac.new(key, msg.encode("utf-8"),
hashlib.sha256)`; the raw digest (`.digest()`). -/
def sign (key : List Nat) (msg : String) : List Nat :=
  hmacSha256 key (utf8 msg)

/-- The `canonical_request` string assembled in `__generate_authorization`
(lines 97–104). -/
def canonical_request (cfg : ApiConfig) (payload : String) : String :=
  http_request_method ++ "\n"
    ++ canonical_uri ++ "\n"
    ++ canonical_query_string ++ "\n"
    ++ canonical_headers cfg ++ "\n"
    ++ signed_headers ++ "\n"
    ++ toHex (sha256 (utf8 payload))

/-- The `credential_scope` string (line 108):
`now_date + "/" + self._service + "/" + "tc3_request"`. -/
def credential_scope (timestamp : Nat) (service : String) : String :=
  now_date timestamp ++ "/" ++ service ++ "/" ++ "tc3_request"

/-- The `signature_content` string-to-sign (lines 110–115), given the hex
hash of the canonical request. -/
def signature_content (timestamp : Nat) (service : String)
    (hashedCanonicalReq : String) : String :=
  algorithm ++ "\n"
    ++ natToDec timestamp ++ "\n"
    ++ credential_scope timestamp service ++ "\n"
    ++ hashedCanonicalReq

/-- The signature computed in `__generate_authorization` (lines 117–121):
the HMAC chain `secret_date → secret_service → secret_signing` keyed by raw
digests, then the lowercase-hex HMAC of `signature_content`. -/
def signature (secret_key : String) (timestamp : Nat) (service : String)
    (canonicalReq : String) : String :=
  let secret_date := sign (utf8 ("TC3" ++ secret_key)) (now_date timestamp)
  let secret_service := sign secret_date service
  let secret_signing := sign secret_service "tc3_request"
  toHex (sign secret_signing
    (signature_content timestamp service (toHex (sha256 (utf8 canonicalReq)))))

/-- `__generate_authorization(timestamp, payload)` (lines 89–126): the
returned `Authorization` value, built from the two f-strings on
lines 123–126. -/
def generate_authorization (cfg : ApiConfig) (timestamp : Nat)
    (payload : String) : String :=
  (algorithm ++ " Credential=" ++ cfg.secret_id ++ "/"
      ++ credential_scope timestamp cfg.service ++ ", ")
    ++ ("SignedHeaders=" ++ signed_headers ++ ", Signature="
      ++ signature cfg.secret_key timestamp cfg.service
           (canonical_request cfg payload))

/-- `__make_headers(payload)` (lines 128–139).  The Python body reads the
wall clock itself — `timestamp = int(time.time())` on line 129 — so the
clock read is made an explicit `timestamp` argument here (state passing);
it is *not* a caller-supplied parameter in the source. -/
def make_headers (cfg : ApiConfig) (payload : Payload) (timestamp : Nat) :
    List (String × String) :=
  [("Authorization", generate_authorization cfg timestamp (json_dumps payload)),
   ("Content-Type", cfg.content_type),
   ("Host", cfg.host),
   ("X-TC-Action", cfg.action),
   ("X-TC-Timestamp", natToDec timestamp),
   ("X-TC-Version", cfg.version),
   ("X-TC-Region", cfg.region),
   ("X-TC-Language", "zh-CN")]

/-- The bytes `__make_headers` hashes into `HashedRequestPayload`:
`json.dumps(payload)` UTF-8 encoded (lines 103 and 131). -/
def signed_payload_bytes (payload : Payload) : List Nat :=
  utf8 (json_dumps payload)

/-- The body bytes `send_request` (lines 149–152) actually transmits:
`requests.post(..., json=payload)` sends `json.dumps(payload)` UTF-8
encoded; `requests.post(..., data=payload)` sends the urlencoded form
body. -/
def request_body_bytes (cfg : ApiConfig) (payload : Payload) : List Nat :=
  if cfg.content_type = "application/json" then utf8 (json_dumps payload)
  else utf8 (urlencode payload)

/-! ## Concrete fixtures -/

/-- The round-trip configuration of spec §8. -/
def cfg0 : ApiConfig :=
  { secret_id := "AKIDEXAMPLE", secret_key := "SecretKeyExample",
    region := "ap-guangzhou", service := "cvm",
    host := "cvm.tencentcloudapi.com", action := "DescribeInstances",
    version := "2017-03-12", content_type := "application/json" }

/-- A descriptor whose `host`, `service`, `action` and `version` are all
empty. -/
def emptyCfg : ApiConfig :=
  { secret_id := "AKIDEXAMPLE", secret_key := "SecretKeyExample",
    region := "ap-guangzhou", service := "", host := "", action := "",
    version := "", content_type := "application/json" }

/-- `cfg0` with the form content type (`data=` transmission path). -/
def formCfg : ApiConfig :=
  { cfg0 with content_type := "multipart/form-data" }

/-- The round-trip payload of spec §8: `{"Limit": 10, "Offset": 0}`. -/
def payload0 : Payload := [("Limit", .i 10), ("Offset", .i 0)]

/-! ## Definitions following the spec's words

These render the spec's contracts (§4.1 Canonicalizer, §4.2
SignatureChain, §4.3 AuthorizationBuilder) literally, to be compared with
the source-derived definitions above. -/

/-- Spec §4.1: the canonical request is the six components joined, in this
exact order, by newline separators. -/
def canonical_request_spec (method uri queryString headersBlock signedHs
    payloadHashHex : String) : String :=
  String.intercalate "\n"
    [method, uri, queryString, headersBlock, signedHs, payloadHashHex]

/-- Spec §4.2 steps 1–3: `string_to_sign = algorithm_id + "\n" + timestamp
+ "\n" + credential_scope + "\n" + hex(SHA256(canonical_request))` with
`credential_scope = date + "/" + service + "/tc3_request"`. -/
def string_to_sign_spec (timestamp : Nat) (service canonicalReq : String) :
    String :=
  String.intercalate "\n"
    ["TC3-HMAC-SHA256", natToDec timestamp,
     now_date timestamp ++ "/" ++ service ++ "/tc3_request",
     toHex (sha256 (utf8 canonicalReq))]

/-- Spec §4.2 steps 4–5: the key chain `k_date = HMAC("TC3" + secret_key,
date)`, `k_service = HMAC(k_date, service)`, `k_signing = HMAC(k_service,
"tc3_request")`, each step keyed by the previous step's raw digest bytes,
then `signature = hex(HMAC(k_signing, string_to_sign))`. -/
def signature_chain_spec (secret_key : String) (timestamp : Nat)
    (service canonicalReq : String) : String :=
  let k_date := hmacSha256 (utf8 ("TC3" ++ secret_key)) (utf8 (now_date timestamp))
  let k_service := hmacSha256 k_date (utf8 service)
  let k_signing := hmacSha256 k_service (utf8 "tc3_request")
  toHex (hmacSha256 k_signing
    (utf8 (string_to_sign_spec timestamp service canonicalReq)))

/-- Spec §4.3: `<algorithm_id> Credential=<secret_id>/<credential_scope>,
SignedHeaders=<signed_headers>, Signature=<signature>`. -/
def authorization_spec (algorithmId secretId credentialScope signedHs
    sig : String) : String :=
  algorithmId ++ " Credential=" ++ secretId ++ "/" ++ credentialScope
    ++ ", SignedHeaders=" ++ signedHs ++ ", Signature=" ++ sig

/-! ## Sanity checks of the primitive embeddings

FIPS 180-4 / RFC 4231-style test vectors for the hash primitives, and
cross-checks of the Python-behaviour embeddings (`str`, `json.dumps`,
`urlencode`, `utcfromtimestamp`) against values computed by CPython. -/

theorem sha256_constants_spot_checks :
    wAt sha256Kpack 0 = 0x428a2f98 ∧ wAt sha256Kpack 19 = 0x240ca1cc
    ∧ wAt sha256Kpack 63 = 0xc67178f2 ∧ wAt sha256Kpack 64 = 0
    ∧ wAt sha256H0pack 0 = 0x6a09e667 ∧ wAt sha256H0pack 7 = 0x5be0cd19
    ∧ wAt sha256H0pack 8 = 0 := by
  refine ⟨by decide, by decide, by decide, by decide, by decide, by decide, by decide⟩

theorem sha256_vector_abc : toHex (sha256 (utf8 "abc")) =
    "ba7816bf8f01cfea414140de5dae2223b00361a396177a9cb410ff61f20015ad" := by decide

theorem sha256_vector_empty : toHex (sha256 (utf8 "")) =
    "e3b0c44298fc1c149afbf4c8996fb92427ae41e4649b934ca495991b7852b855" := by decide

theorem hmac_vector_fox :
    toHex (hmacSha256 (utf8 "key")
      (utf8 "The quick brown fox jumps over the lazy dog")) =
    "f7bc83f430538424b13298e6aa6fb143ef4d59a14946175997479dbc2d1a3cd8" := by decide

theorem now_date_vectors :
    now_date 0 = "1970-01-01" ∧ now_date 86399 = "1970-01-01"
    ∧ now_date 86400 = "1970-01-02" ∧ now_date 951782400 = "2000-02-29"
    ∧ now_date 1700000000 = "2023-11-14" := by
  refine ⟨by decide, by decide, by decide, by decide, by decide⟩

theorem json_dumps_vectors :
    json_dumps payload0 = "\x7b\"Limit\": 10, \"Offset\": 0\x7d"
    ∧ json_dumps [("a", .s "b")] = "\x7b\"a\": \"b\"\x7d"
    ∧ json_dumps [] = "\x7b\x7d" := by
  refine ⟨by decide, by decide, by decide⟩

theorem urlencode_vectors :
    urlencode payload0 = "Limit=10&Offset=0"
    ∧ urlencode [("a", .s "b c/d"), ("n", .i 7)] = "a=b+c%2Fd&n=7" := by
  refine ⟨by decide, by decide⟩

/-! ## Decimal rendering: round-trip and injectivity -/

theorem decAux_value : ∀ fuel n, n ≤ fuel → ofDigitsLE (decAux fuel n) = n := by
  intro fuel
  induction fuel with
  | zero => intro n h; interval_cases n; simp [decAux, ofDigitsLE]
  | succ f ih =>
    intro n h
    match n with
    | 0 => simp [decAux, ofDigitsLE]
    | m + 1 =>
      have hdiv : (m + 1) / 10 ≤ f := by
        have := Nat.div_lt_self (Nat.succ_pos m) (by omega : 1 < 10)
        omega
      simp only [decAux, ofDigitsLE, ih _ hdiv]
      omega

theorem decAux_digit_lt : ∀ fuel n d, d ∈ decAux fuel n → d < 10 := by
  intro fuel
  induction fuel with
  | zero => intro n d h; simp [decAux] at h
  | succ f ih =>
    intro n d h
    match n with
    | 0 => simp [decAux] at h
    | m + 1 =>
      simp only [decAux, List.mem_cons] at h
      rcases h with h | h
      · omega
      · exact ih _ _ h

theorem charToDigit_digitChar {d : Nat} (h : d < 10) :
    charToDigit (digitChar d) = d := by
  interval_cases d <;> decide

/-- `natToDec` round-trips through decimal parsing. -/
theorem decodeDec_natToDec (n : Nat) : decodeDec (natToDec n) = n := by
  by_cases h0 : n = 0
  · subst h0; decide
  · simp only [natToDec, h0, if_false, decodeDec, List.asString]
    simp only [List.map_reverse, List.reverse_reverse, List.map_map]
    have : List.map (charToDigit ∘ digitChar) (decAux n n) = decAux n n := by
      rw [List.map_congr_left (g := id) ?_, List.map_id]
      intro d hd
      exact charToDigit_digitChar (decAux_digit_lt n n d hd)
    rw [this, decAux_value n n (Nat.le_refl n)]

/-- Python decimal rendering is injective. -/
theorem natToDec_injective {m n : Nat} (h : natToDec m = natToDec n) : m = n := by
  have := congrArg decodeDec h
  rwa [decodeDec_natToDec, decodeDec_natToDec] at this

/-! ## String-append helpers -/

theorem str_assoc (a b c : String) : a ++ b ++ c = a ++ (b ++ c) :=
  String.ext (by simp [String.data_append, List.append_assoc])

theorem merge_slash_tc3 (A : String) :
    A ++ "/" ++ "tc3_request" = A ++ "/tc3_request" := by rw [str_assoc]; rfl

theorem merge_comma_signed (A : String) :
    A ++ ", " ++ "SignedHeaders=" = A ++ ", SignedHeaders=" := by
  rw [str_assoc]; rfl

/-- The string-to-sign assembled by the source equals the spec's
newline-joined rendering. -/
theorem signature_content_eq_spec (ts : Nat) (svc h : String) :
    signature_content ts svc h
      = String.intercalate "\n"
          ["TC3-HMAC-SHA256", natToDec ts,
           now_date ts ++ "/" ++ svc ++ "/tc3_request", h] := by
  have hi : String.intercalate "\n"
        ["TC3-HMAC-SHA256", natToDec ts,
         now_date ts ++ "/" ++ svc ++ "/tc3_request", h]
      = (("TC3-HMAC-SHA256" ++ "\n" ++ natToDec ts) ++ "\n"
          ++ (now_date ts ++ "/" ++ svc ++ "/tc3_request")) ++ "\n" ++ h := rfl
  rw [hi]
  simp only [signature_content, credential_scope, algorithm]
  simp only [← str_assoc]
  simp only [merge_slash_tc3]

/-! ## Claim theorems -/

/-- C1: for every secret key, timestamp, service and canonical request,
the signature emitted by `__generate_authorization` equals the lowercase
hex HMAC-SHA256 of the string-to-sign keyed by the chain `k_date →
k_service → k_signing` of the spec, each step keyed by the previous raw
digest. -/
theorem signature_matches_spec_chain (secret_key : String) (timestamp : Nat)
    (service canonicalReq : String) :
    signature secret_key timestamp service canonicalReq
      = signature_chain_spec secret_key timestamp service canonicalReq := by
  simp only [signature, signature_chain_spec, sign, string_to_sign_spec]
  rw [signature_content_eq_spec]

/-- C2: for every payload and host (and content type), the canonical
request equals exactly the six spec components joined by newlines, with
the canonical URI fixed to `/` and the canonical query string fixed to
`""` for POST. -/
theorem canonical_request_matches_spec (cfg : ApiConfig) (payload : String) :
    canonical_request cfg payload
      = canonical_request_spec "POST" "/" "" (canonical_headers cfg)
          "content-type;host" (toHex (sha256 (utf8 payload))) := rfl

/-- C3 (counterexample): two invocations of `__make_headers` with
identical caller-supplied inputs (credentials, descriptor, payload) but
internal wall-clock reads one second apart yield different header maps —
the timestamp is read via `time.time()` inside the signer (base.py line
129), not supplied by the caller. -/
theorem clock_readings_change_headers :
    make_headers cfg0 payload0 1700000000 ≠ make_headers cfg0 payload0 1700000001 :=
  fun h => absurd (congrArg (fun l => (l.getD 4 ("", "")).2) h) (by decide)

/-- C3 (amended): the header map is a pure function of credentials,
descriptor, payload and the internally-read timestamp — two calls yield
byte-identical headers exactly when the wall-clock readings coincide. -/
theorem headers_deterministic_iff_same_clock (cfg : ApiConfig)
    (payload : Payload) (t1 t2 : Nat) :
    make_headers cfg payload t1 = make_headers cfg payload t2 ↔ t1 = t2 := by
  constructor
  · intro h
    exact natToDec_injective (congrArg (fun l => (l.getD 4 ("", "")).2) h)
  · intro h; rw [h]

/-- C4 (code bug): with the form content type, the bytes whose SHA-256 is
signed (`json.dumps(payload)`, base.py line 131) differ from the body
bytes transmitted (`data=payload`, urlencoded, line 152); with the JSON
content type they agree. -/
theorem payload_bytes_sign_transmit_mismatch :
    signed_payload_bytes payload0 ≠ request_body_bytes formCfg payload0
    ∧ signed_payload_bytes payload0 = request_body_bytes cfg0 payload0 := by
  constructor
  · decide
  · decide

/-- C5 (counterexample): with an entirely empty descriptor (`host`,
`service`, `action`, `version` all `""`) the signer does not fail: it
performs the hashing and emits a complete header map whose
`Authorization` carries a computed signature (the empty strings are
simply interpolated into the credential scope). -/
theorem empty_descriptor_signs :
    List.lookup "Authorization" (make_headers emptyCfg payload0 1700000000)
      = some ("TC3-HMAC-SHA256 Credential=AKIDEXAMPLE/2023-11-14//tc3_request, "
          ++ "SignedHeaders=content-type;host, Signature="
          ++ "ed7cdebd9e57449610bc96287acd937d856a645b59aa873c549a0fb9a8032e84")
    ∧ List.lookup "Host" (make_headers emptyCfg payload0 1700000000) = some "" := by
  constructor
  · decide
  · decide

/-- C5 (amended): the signer performs no validation of the service
descriptor: for every payload and timestamp, an empty `host`/`service`/
`action` descriptor still yields the full eight-key header map, with the
`Authorization` value computed by the ordinary signing path and the empty
`Host`. -/
theorem no_validation_empty_descriptor (payload : Payload) (ts : Nat) :
    List.lookup "Authorization" (make_headers emptyCfg payload ts)
      = some (generate_authorization emptyCfg ts (json_dumps payload))
    ∧ List.lookup "Host" (make_headers emptyCfg payload ts) = some ""
    ∧ (make_headers emptyCfg payload ts).map Prod.fst
      = ["Authorization", "Content-Type", "Host", "X-TC-Action",
         "X-TC-Timestamp", "X-TC-Version", "X-TC-Region", "X-TC-Language"] :=
  ⟨rfl, rfl, rfl⟩

/-- C6: the credential-scope date is the UTC calendar date of the
timestamp: at the second boundary `1704067199 → 1704067200` the date
component flips from `2023-12-31` to `2024-01-01`, every credential scope
differs, and the final signature differs for an unchanged payload. -/
theorem date_boundary_changes_signature :
    now_date 1704067199 = "2023-12-31"
    ∧ now_date 1704067200 = "2024-01-01"
    ∧ (∀ service : String,
        credential_scope 1704067199 service ≠ credential_scope 1704067200 service)
    ∧ signature cfg0.secret_key 1704067199 cfg0.service
        (canonical_request cfg0 (json_dumps payload0))
      ≠ signature cfg0.secret_key 1704067200 cfg0.service
        (canonical_request cfg0 (json_dumps payload0)) := by
  refine ⟨by decide, by decide, ?_, by decide⟩
  intro svc h
  simp only [credential_scope] at h
  rw [show now_date 1704067199 = "2023-12-31" from by decide,
      show now_date 1704067200 = "2024-01-01" from by decide] at h
  have hd := congrArg String.data h
  simp only [String.data_append, List.append_assoc] at hd
  have hfront := (List.append_inj hd (by decide)).1
  exact absurd hfront (by decide)

/-- C7: for every configuration, timestamp and payload, the
`Authorization` value equals exactly the spec template
`<algorithm_id> Credential=<secret_id>/<credential_scope>,
SignedHeaders=<signed_headers>, Signature=<signature>`. -/
theorem authorization_matches_template (cfg : ApiConfig) (timestamp : Nat)
    (payload : String) :
    generate_authorization cfg timestamp payload
      = authorization_spec algorithm cfg.secret_id
          (credential_scope timestamp cfg.service) signed_headers
          (signature cfg.secret_key timestamp cfg.service
            (canonical_request cfg payload)) := by
  simp only [generate_authorization, authorization_spec]
  simp only [← str_assoc]
  simp only [merge_comma_signed]

/-- C8: a single timestamp value is used throughout one call: the
`X-TC-Timestamp` header is its decimal rendering, the `Authorization`
header is generated from the same value, and the string-to-sign carries
the same decimal rendering as its second newline-separated component. -/
theorem single_timestamp_everywhere (cfg : ApiConfig) (payload : Payload)
    (timestamp : Nat) :
    List.lookup "X-TC-Timestamp" (make_headers cfg payload timestamp)
      = some (natToDec timestamp)
    ∧ List.lookup "Authorization" (make_headers cfg payload timestamp)
      = some (generate_authorization cfg timestamp (json_dumps payload))
    ∧ (∀ service hashedCR : String,
        signature_content timestamp service hashedCR
          = algorithm ++ "\n" ++ natToDec timestamp ++ "\n"
            ++ credential_scope timestamp service ++ "\n" ++ hashedCR) :=
  ⟨rfl, rfl, fun _ _ => rfl⟩

/-- C9: for every input, the header map has exactly the eight keys
`Authorization, Content-Type, Host, X-TC-Action, X-TC-Timestamp,
X-TC-Version, X-TC-Region, X-TC-Language`, in this order, none missing
and none extra. -/
theorem header_keys_exact (cfg : ApiConfig) (payload : Payload) (ts : Nat) :
    (make_headers cfg payload ts).map Prod.fst
      = ["Authorization", "Content-Type", "Host", "X-TC-Action",
         "X-TC-Timestamp", "X-TC-Version", "X-TC-Region", "X-TC-Language"] := rfl

/-- C10: the `X-TC-Language` header is always the constant `zh-CN`, the
`SignedHeaders` component is always the constant `content-type;host`
(the semicolon join of exactly `content-type` and `host`), and the
canonical headers block consists of exactly those two headers. -/
theorem language_and_signed_coverage_fixed (cfg : ApiConfig)
    (payload : Payload) (ts : Nat) :
    List.lookup "X-TC-Language" (make_headers cfg payload ts) = some "zh-CN"
    ∧ signed_headers = "content-type;host"
    ∧ signed_headers = "content-type" ++ ";" ++ "host"
    ∧ canonical_headers cfg
      = "content-type:" ++ cfg.content_type ++ "\n" ++ "host:" ++ cfg.host ++ "\n" :=
  ⟨rfl, rfl, rfl, rfl⟩

end TencentSign
